import Mathlib

/-!
Verification of the SuperTomo multi-view registration core: a shallow
embedding of `supertomo/reconstruction/registration_mv.py`,
`supertomo/reconstruction/utils.py`, `supertomo/processing/ndarray.py`
and `supertomo/bin/import.py`, with theorems settling the spec claims.

Machine arithmetic is embedded over exact fields (ℚ, ℝ); IEEE special
values (inf, NaN), where a claim is about them, are embedded as an
explicit extended-value type.
-/

namespace Supertomo

/-! ## Transform algebra (registration_mv.py, execute, lines 185-198)

An ITK/SimpleITK affine transform is a matrix `A`, a fixed center `c`
and a translation `t`; as a point map it sends `x` to `A·(x − c) + c + t`.
-/

/-- An affine transform as SimpleITK stores it: matrix, center, translation
(`sitk.AffineTransform(matrix, translation, center)`). -/
structure AffineT where
  A : Matrix (Fin 3) (Fin 3) ℚ
  c : Fin 3 → ℚ
  t : Fin 3 → ℚ
  deriving DecidableEq

/-- The point map of an ITK affine transform: `x ↦ A·(x − c) + c + t`. -/
def applyT (T : AffineT) (x : Fin 3 → ℚ) : Fin 3 → ℚ :=
  T.A.mulVec (x - T.c) + T.c + T.t

/-- The transform combination computed at lines 193-198 of
`registration_mv.py`: `combined_mat = A0·A1`, `combined_center = c1`,
`combined_translation = A0·(t1 + c1 − c0) + t0 + c0 − c1`, where the
manual transform is `(A0, c0, t0)` and the estimated one `(A1, c1, t1)`. -/
def combineTransforms (manual estimated : AffineT) : AffineT where
  A := manual.A * estimated.A
  c := estimated.c
  t := manual.A.mulVec (estimated.t + estimated.c - manual.c)
        + manual.t + manual.c - estimated.c

/-- The identity manual transform about a center `c0`: identity matrix and
zero translation (the center of an identity map is immaterial). -/
def identityT (c0 : Fin 3 → ℚ) : AffineT where
  A := 1
  c := c0
  t := 0

/-- Key algebra lemma: the combined transform's point map is
`applyT manual ∘ applyT estimated` (the estimated transform acts on the
point first; in ITK resampling convention this resamples the image
through the manual transform first, then the estimated one). -/
theorem combineTransforms_apply (manual estimated : AffineT) (x : Fin 3 → ℚ) :
    applyT (combineTransforms manual estimated) x
      = applyT manual (applyT estimated x) := by
  unfold applyT combineTransforms
  simp only [Matrix.mulVec_add, Matrix.mulVec_sub, ← Matrix.mulVec_mulVec]
  abel

end Supertomo

namespace Supertomo

/-! ## Claims C1, C2, C9 -/

/-- C1: the claim's reading — the combined transform equals the point map
"manual first, then estimated" — fails on concrete non-commuting shear
matrices with zero centers and translations: the code builds the matrix
`A0·A1`, while point-map order manual-then-estimated needs `A1·A0`. -/
theorem c1_counterexample :
    applyT (combineTransforms
        ⟨!![1, 1, 0; 0, 1, 0; 0, 0, 1], 0, 0⟩
        ⟨!![1, 0, 0; 1, 1, 0; 0, 0, 1], 0, 0⟩) ![1, 0, 0]
      ≠ applyT ⟨!![1, 0, 0; 1, 1, 0; 0, 0, 1], 0, 0⟩
          (applyT ⟨!![1, 1, 0; 0, 1, 0; 0, 0, 1], 0, 0⟩ ![1, 0, 0]) := by
  intro h
  have h0 := congrFun h 0
  simp [applyT, combineTransforms, Matrix.mulVec, Matrix.dotProduct,
    Fin.sum_univ_three] at h0

/-- C1 (amended): the combined transform built by `execute()` —
matrix `A0·A1`, center `c1`, translation `A0·(t1 + c1 − c0) + t0 + c0 − c1`
— is exact affine algebra for resampling through the manual transform and
then the estimated one: as a point map about the single center `c1` it
sends every point `x` to the image obtained by applying the estimated
transform and then the manual transform to `x`. -/
theorem c1_combined_is_manual_after_estimated
    (manual estimated : AffineT) (x : Fin 3 → ℚ) :
    applyT (combineTransforms manual estimated) x
      = applyT manual (applyT estimated x) :=
  combineTransforms_apply manual estimated x

/-- C2: combining an identity manual transform (identity matrix, zero
translation, arbitrary center `c0`) with any estimated transform yields
the estimated transform unchanged: same matrix, same center, same
translation. -/
theorem c2_identity_law (estimated : AffineT) (c0 : Fin 3 → ℚ) :
    combineTransforms (identityT c0) estimated = estimated := by
  unfold combineTransforms identityT
  cases estimated with
  | mk A c t =>
    simp [Matrix.one_mulVec]

/-- C9: the combination is not commutative: there are transforms `a`, `b`,
each moving some point (non-identity) and with different centers, such
that combining them in the order `(a, b)` and in the order `(b, a)`
disagree as point maps at some point `x`. -/
theorem c9_not_commutative :
    ∃ a b : AffineT, ∃ x : Fin 3 → ℚ,
      (∃ y, applyT a y ≠ y) ∧ (∃ z, applyT b z ≠ z) ∧ a.c ≠ b.c ∧
      applyT (combineTransforms a b) x ≠ applyT (combineTransforms b a) x := by
  refine ⟨⟨!![1, 1, 0; 0, 1, 0; 0, 0, 1], ![0, 0, 0], 0⟩,
          ⟨!![1, 0, 0; 1, 1, 0; 0, 0, 1], ![1, 0, 0], 0⟩,
          ![0, 1, 0], ⟨![0, 1, 0], ?_⟩, ⟨![0, 1, 0], ?_⟩, ?_, ?_⟩ <;>
    · intro h
      have h0 := congrFun h 0
      have h1 := congrFun h 1
      simp [applyT, combineTransforms, Matrix.mulVec, Matrix.dotProduct,
        Fin.sum_univ_three, Matrix.vecHead, Matrix.vecTail, Function.comp] at h0 h1

end Supertomo

namespace Supertomo

/-! ## COARSE_ALIGN manual transform (registration_mv.py, lines 114-136)

The code builds a `sitk.Euler3DTransform`: center = the moving image's
physical center (`TransformContinuousIndexToPhysicalPoint` of
`[(n − 1)/2 for n in size]`), Euler angles with the acquisition angle on
the axis chosen by `rot_axis` and zero on the other two, translation =
`[y_offset, x_offset, z_offset]`.  ITK's `Euler3DTransform` composes its
rotation matrix as `RotZ · RotX · RotY` (default angle order). -/

/-- Rotation about the x axis. -/
noncomputable def rotX (a : ℝ) : Matrix (Fin 3) (Fin 3) ℝ :=
  !![1, 0, 0; 0, Real.cos a, -Real.sin a; 0, Real.sin a, Real.cos a]

/-- Rotation about the y axis. -/
noncomputable def rotY (a : ℝ) : Matrix (Fin 3) (Fin 3) ℝ :=
  !![Real.cos a, 0, Real.sin a; 0, 1, 0; -Real.sin a, 0, Real.cos a]

/-- Rotation about the z axis. -/
noncomputable def rotZ (a : ℝ) : Matrix (Fin 3) (Fin 3) ℝ :=
  !![Real.cos a, -Real.sin a, 0; Real.sin a, Real.cos a, 0; 0, 0, 1]

/-- The rotation matrix of an ITK `Euler3DTransform` with angles
`(ax, ay, az)` (default ZXY composition order). -/
noncomputable def euler3DMatrix (ax ay az : ℝ) : Matrix (Fin 3) (Fin 3) ℝ :=
  rotZ az * rotX ax * rotY ay

/-- ITK `TransformContinuousIndexToPhysicalPoint` for an image with
identity direction cosines: `p_i = origin_i + spacing_i · idx_i`. -/
noncomputable def physicalPoint (origin spacing idx : Fin 3 → ℝ) : Fin 3 → ℝ :=
  fun i => origin i + spacing i * idx i

/-- The continuous index-space center `[(n − 1)/2 for n in size]` used at
line 119 of `registration_mv.py`. -/
noncomputable def imageCenterIndex (size : Fin 3 → ℕ) : Fin 3 → ℝ :=
  fun i => ((size i : ℝ) - 1) / 2

/-- An ITK `Euler3DTransform`: three Euler angles, a center and a
translation. -/
structure Euler3DT where
  angleX : ℝ
  angleY : ℝ
  angleZ : ℝ
  center : Fin 3 → ℝ
  translation : Fin 3 → ℝ

/-- The rotation matrix of an `Euler3DT`. -/
noncomputable def Euler3DT.matrix (T : Euler3DT) : Matrix (Fin 3) (Fin 3) ℝ :=
  euler3DMatrix T.angleX T.angleY T.angleZ

/-- The Euler angles of an `Euler3DT` as a 3-vector `(ax, ay, az)`. -/
noncomputable def Euler3DT.angles (T : Euler3DT) : Fin 3 → ℝ :=
  ![T.angleX, T.angleY, T.angleZ]

/-- The manual transform built in the COARSE_ALIGN step
(`registration_mv.py` lines 115-134): rotation center set to the moving
image's physical center, `SetRotation` with the acquisition angle on the
axis chosen by `rot_axis` (the `if / elif / else` chain), and translation
`[y_offset, x_offset, z_offset]`. -/
noncomputable def buildManualTransform (size : Fin 3 → ℕ) (spacing origin : Fin 3 → ℝ)
    (rotationAngle : ℝ) (rotAxis : ℕ) (yOff xOff zOff : ℝ) : Euler3DT where
  angleX := if rotAxis = 0 then rotationAngle else 0
  angleY := if rotAxis = 0 then 0 else if rotAxis = 1 then rotationAngle else 0
  angleZ := if rotAxis = 0 then 0 else if rotAxis = 1 then 0 else rotationAngle
  center := physicalPoint origin spacing (imageCenterIndex size)
  translation := ![yOff, xOff, zOff]

/-- The pure rotation about principal axis 0, 1 or 2. -/
noncomputable def principalAxisRotation (axis : ℕ) (a : ℝ) : Matrix (Fin 3) (Fin 3) ℝ :=
  if axis = 0 then rotX a else if axis = 1 then rotY a else rotZ a

theorem rotX_zero : rotX 0 = 1 := by
  ext i j
  fin_cases i <;> fin_cases j <;>
    simp [rotX, Matrix.one_apply, Matrix.vecHead, Matrix.vecTail]

theorem rotY_zero : rotY 0 = 1 := by
  ext i j
  fin_cases i <;> fin_cases j <;>
    simp [rotY, Matrix.one_apply, Matrix.vecHead, Matrix.vecTail]

theorem rotZ_zero : rotZ 0 = 1 := by
  ext i j
  fin_cases i <;> fin_cases j <;>
    simp [rotZ, Matrix.one_apply, Matrix.vecHead, Matrix.vecTail]

end Supertomo

namespace Supertomo

/-- C5: for `rot_axis ∈ {0, 1, 2}` the COARSE_ALIGN manual rigid
transform has rotation center equal to the moving image's physical center
(the continuous index-space center `(n−1)/2` mapped through voxel size
and origin), Euler angles equal to the acquisition angle on axis
`rot_axis` and zero on the other two, hence rotation matrix equal to the
pure rotation about that single principal axis, and translation equal to
the user-supplied offset vector. -/
theorem c5_manual_transform (size : Fin 3 → ℕ) (spacing origin : Fin 3 → ℝ)
    (θ : ℝ) (rotAxis : ℕ) (yOff xOff zOff : ℝ) (h : rotAxis < 3) :
    (buildManualTransform size spacing origin θ rotAxis yOff xOff zOff).center
        = (fun i => origin i + spacing i * (((size i : ℝ) - 1) / 2)) ∧
    (buildManualTransform size spacing origin θ rotAxis yOff xOff zOff).angles
        = (fun i : Fin 3 => if (i : ℕ) = rotAxis then θ else 0) ∧
    (buildManualTransform size spacing origin θ rotAxis yOff xOff zOff).matrix
        = principalAxisRotation rotAxis θ ∧
    (buildManualTransform size spacing origin θ rotAxis yOff xOff zOff).translation
        = ![yOff, xOff, zOff] := by
  refine ⟨rfl, ?_, ?_, rfl⟩
  · funext i
    interval_cases rotAxis <;> fin_cases i <;>
      simp [buildManualTransform, Euler3DT.angles]
  · interval_cases rotAxis <;>
      simp [buildManualTransform, Euler3DT.matrix, euler3DMatrix,
        principalAxisRotation, rotX_zero, rotY_zero, rotZ_zero]

/-- C5 witness: the theorem instantiated at `rot_axis = 1`, a concrete
image geometry and concrete offsets. -/
theorem c5_manual_transform_witness :
    (1 : ℕ) < 3 ∧
    ((buildManualTransform ![2, 4, 6] ![1, 2, 3] ![10, 20, 30] 1 1 5 6 7).center
        = (fun i => (![10, 20, 30] : Fin 3 → ℝ) i
            + (![1, 2, 3] : Fin 3 → ℝ) i * ((((![2, 4, 6] : Fin 3 → ℕ) i : ℝ) - 1) / 2)) ∧
     (buildManualTransform ![2, 4, 6] ![1, 2, 3] ![10, 20, 30] 1 1 5 6 7).angles
        = (fun i : Fin 3 => if (i : ℕ) = 1 then (1 : ℝ) else 0) ∧
     (buildManualTransform ![2, 4, 6] ![1, 2, 3] ![10, 20, 30] 1 1 5 6 7).matrix
        = principalAxisRotation 1 1 ∧
     (buildManualTransform ![2, 4, 6] ![1, 2, 3] ![10, 20, 30] 1 1 5 6 7).translation
        = ![5, 6, 7]) :=
  ⟨by norm_num,
   c5_manual_transform ![2, 4, 6] ![1, 2, 3] ![10, 20, 30] 1 1 5 6 7 (by norm_num)⟩

end Supertomo

namespace Supertomo

/-! ## Metric selection (registration_mv.py, __init__, lines 66-77)

The constructor configures exactly one similarity metric from
`options.registration_method`; an unknown name raises
`ValueError("Unknown metric: %s" % ...)` (the spec's `UnknownMetricError`). -/

/-- The three similarity metrics the constructor can configure. -/
inductive Metric where
  | mattesMutualInformation (histogramBins : ℕ)
  | correlation
  | meanSquares
  deriving DecidableEq

/-- The metric dispatch of `MultiViewRegistration.__init__` (lines 66-77):
`'mattes'` → Mattes mutual information with the configured histogram bins,
`'correlation'` → correlation, `'mean-squared-difference'` → mean squares,
anything else → the `Unknown metric` error. -/
def selectMetric (registrationMethod : String) (mattesHistogramBins : ℕ) :
    Except String Metric :=
  if registrationMethod = "mattes" then
    .ok (.mattesMutualInformation mattesHistogramBins)
  else if registrationMethod = "correlation" then
    .ok .correlation
  else if registrationMethod = "mean-squared-difference" then
    .ok .meanSquares
  else
    .error ("Unknown metric: " ++ registrationMethod)

/-- The registration object's result slot (`self.final_transform`),
`None` until `execute()` stores the combined transform. -/
structure RegistrationState where
  final_transform : Option AffineT

/-- The state after `__init__` (line 39: `self.final_transform = None`). -/
def initRegistration : RegistrationState :=
  ⟨none⟩

/-- `get_final_transform` (lines 225-232): it simply returns
`self.final_transform` — no check, no exception. -/
def get_final_transform (s : RegistrationState) : Option AffineT :=
  s.final_transform

/-- The RESULTS tail of `execute()` (lines 185-198): store the combined
transform in `self.final_transform`. -/
def executeStoreResult (s : RegistrationState) (manual estimated : AffineT) :
    RegistrationState :=
  { s with final_transform := some (combineTransforms manual estimated) }

end Supertomo

namespace Supertomo

/-- C6: any configured metric name other than `mattes`, `correlation` and
`mean-squared-difference` makes the metric dispatch fail with the
`Unknown metric` error, and each of the three supported names configures
exactly the corresponding metric with no error. -/
theorem c6_metric_dispatch (name : String) (bins : ℕ)
    (h : name ≠ "mattes" ∧ name ≠ "correlation" ∧ name ≠ "mean-squared-difference") :
    selectMetric name bins = .error ("Unknown metric: " ++ name)
    ∧ selectMetric "mattes" bins = .ok (.mattesMutualInformation bins)
    ∧ selectMetric "correlation" bins = .ok .correlation
    ∧ selectMetric "mean-squared-difference" bins = .ok .meanSquares := by
  obtain ⟨h1, h2, h3⟩ := h
  refine ⟨?_, rfl, rfl, rfl⟩
  simp [selectMetric, h1, h2, h3]

/-- C6 witness: the dispatch at the unsupported name `gradient-difference`
with 32 histogram bins. -/
theorem c6_metric_dispatch_witness :
    ("gradient-difference" ≠ "mattes" ∧ "gradient-difference" ≠ "correlation"
      ∧ "gradient-difference" ≠ "mean-squared-difference")
    ∧ (selectMetric "gradient-difference" 32
          = .error ("Unknown metric: " ++ "gradient-difference")
        ∧ selectMetric "mattes" 32 = .ok (.mattesMutualInformation 32)
        ∧ selectMetric "correlation" 32 = .ok .correlation
        ∧ selectMetric "mean-squared-difference" 32 = .ok .meanSquares) :=
  ⟨by decide, c6_metric_dispatch "gradient-difference" 32 (by decide)⟩

/-- C7 counterexample: before `execute()` has run, `get_final_transform()`
does not fail with any error — it returns normally with `None` (the value
set by `__init__`), because the method body is a bare
`return self.final_transform`. -/
theorem c7_counterexample :
    get_final_transform initRegistration = none :=
  rfl

/-- C7 (amended): calling `get_final_transform()` before `execute()` has
completed returns `None` (no error is raised); after `execute()` stores
its result, it returns the combined transform. -/
theorem c7_final_transform_lifecycle (s : RegistrationState)
    (manual estimated : AffineT) :
    get_final_transform initRegistration = none
    ∧ get_final_transform (executeStoreResult s manual estimated)
        = some (combineTransforms manual estimated) :=
  ⟨rfl, rfl⟩

end Supertomo

namespace Supertomo

/-! ## PSF shift and normalization (reconstruction/utils.py, lines 39-40)

The tail of `get_coherent_images` runs `psf_images =
fftpack.fftshift(psf_images); psf_images /= psf_images.sum()`.
`fftshift` along one axis of length `n` is a circular roll by `n // 2`:
`out[i] = in[(i − n//2) mod n]`.  The one-dimensional case is embedded;
each axis of the n-dimensional call behaves identically. -/

/-- The index `n / 2` that `fftshift` rolls by. -/
def halfIdx (n : ℕ) [NeZero n] : Fin n :=
  ⟨n / 2, Nat.div_lt_self (Nat.pos_of_ne_zero (NeZero.ne n)) one_lt_two⟩

/-- `numpy.fft.fftshift` (equivalently `scipy.fftpack.fftshift`) on one
axis: a circular roll by `n / 2`, `out[i] = in[(i − n/2) mod n]`. -/
def fftshift (n : ℕ) [NeZero n] (x : Fin n → ℚ) : Fin n → ℚ :=
  fun i => x (i - halfIdx n)

/-- Lines 39-40 of `reconstruction/utils.py`: shift the PSF with
`fftshift`, then divide it by its own sum. -/
def psfShiftNormalize (n : ℕ) [NeZero n] (x : Fin n → ℚ) : Fin n → ℚ :=
  fun i => fftshift n x i / ∑ j, fftshift n x j

/-- The numerator of the energy centroid: `∑ i, i · x i`.  For a
non-negative mass distribution the centroid sits at index 0 exactly when
this vanishes. -/
def centroidNum (n : ℕ) (x : Fin n → ℚ) : ℚ :=
  ∑ i : Fin n, (i.val : ℚ) * x i

/-- Sum invariance of the circular shift. -/
theorem fftshift_sum (n : ℕ) [NeZero n] (x : Fin n → ℚ) :
    (∑ i, fftshift n x i) = ∑ i, x i :=
  Fintype.sum_equiv (Equiv.subRight (halfIdx n)) _ x (fun _ => rfl)

end Supertomo

namespace Supertomo

/-- C8 counterexample: for the PSF `[0, 1, 0, 0]` (unit mass at index 1,
off the geometric center), the returned PSF is `[0, 0, 0, 1]`: its energy
centroid sits at index 3, not at index 0, because `fftshift` is a blind
roll by half the size, not a recentering on the energy centroid. -/
theorem c8_counterexample :
    centroidNum 4 (psfShiftNormalize 4 ![0, 1, 0, 0]) ≠ 0 := by
  have e : ∀ i : Fin 4, fftshift 4 ![0, 1, 0, 0] i = ![0, 0, 0, 1] i := by
    intro i
    fin_cases i <;> rfl
  have e2 : psfShiftNormalize 4 ![0, 1, 0, 0] = ![0, 0, 0, 1] := by
    funext i
    simp only [psfShiftNormalize, e, Fin.sum_univ_four]
    fin_cases i <;> norm_num
  rw [e2]
  norm_num [centroidNum, Fin.sum_univ_four]
  exact Nat.cast_ne_zero.mpr (by decide)

/-- C8 (amended): the returned PSF is the input circularly rolled by half
the array size — index `i` of the result holds input index
`(i − n/2) mod n`, so the element landing at index 0 is the one at input
index `(n − n/2) mod n` (the geometric center for even sizes), whether or
not that is the energy centroid — and, whenever the input has nonzero
total intensity, the result is normalized to total intensity 1. -/
theorem c8_shift_and_normalize (n : ℕ) [NeZero n] (x : Fin n → ℚ)
    (h : (∑ i, x i) ≠ 0) :
    (∑ i, psfShiftNormalize n x i) = 1
    ∧ (∀ i, psfShiftNormalize n x i = x (i - halfIdx n) / ∑ j, x j) := by
  have hs : (∑ i, fftshift n x i) = ∑ i, x i := fftshift_sum n x
  constructor
  · unfold psfShiftNormalize
    rw [← Finset.sum_div, hs, div_self h]
  · intro i
    unfold psfShiftNormalize
    rw [hs]
    rfl

/-- C8 witness: the amended theorem at the concrete PSF `[1, 2, 3, 2]`. -/
theorem c8_shift_and_normalize_witness :
    (∑ i, (![1, 2, 3, 2] : Fin 4 → ℚ) i) ≠ 0
    ∧ ((∑ i, psfShiftNormalize 4 ![1, 2, 3, 2] i) = 1
        ∧ (∀ i, psfShiftNormalize 4 ![1, 2, 3, 2] i
            = (![1, 2, 3, 2] : Fin 4 → ℚ) (i - halfIdx 4)
                / ∑ j, (![1, 2, 3, 2] : Fin 4 → ℚ) j)) :=
  ⟨by norm_num [Fin.sum_univ_four],
   c8_shift_and_normalize 4 ![1, 2, 3, 2] (by norm_num [Fin.sum_univ_four])⟩

end Supertomo

namespace Supertomo

/-! ## safe_divide (processing/ndarray.py, lines 186-197)

`safe_divide` computes `result = numerator / denominator` with the
divide-by-zero warning suppressed, sets elements equal to `+inf` to `0`,
and returns `numpy.nan_to_num(result)`.  IEEE special values are embedded
as an explicit extended-value type over exact rationals; `nan_to_num`
maps NaN to `0` and `±inf` to the largest (most negative) finite
double. -/

/-- An IEEE-754 double as exact data: a finite rational, `±inf`, or NaN. -/
inductive FloatVal where
  | finite (q : ℚ)
  | posInf
  | negInf
  | nan
  deriving DecidableEq

/-- Whether a `FloatVal` is finite. -/
def FloatVal.isFinite : FloatVal → Bool
  | .finite _ => true
  | _ => false

/-- Elementwise numpy division of two finite values: a zero denominator
yields `+inf`, `-inf` or NaN according to the numerator's sign (the
divide-by-zero warning is suppressed by the `errstate` context). -/
def npDivide (a b : ℚ) : FloatVal :=
  if b = 0 then
    if 0 < a then .posInf else if a < 0 then .negInf else .nan
  else
    .finite (a / b)

/-- The largest finite IEEE double, `(2 − 2⁻⁵²)·2¹⁰²³`. -/
def maxFloat : ℚ :=
  2 ^ 1024 - 2 ^ 971

/-- Line 196, `result[result == numpy.inf] = 0.0`: only `+inf` compares
equal to `numpy.inf` (NaN and `-inf` do not), so exactly the `+inf`
elements become `0`. -/
def zeroOutPosInf (v : FloatVal) : FloatVal :=
  if v = .posInf then .finite 0 else v

/-- `numpy.nan_to_num` on one element: NaN becomes `0`, `+inf` the
largest finite double, `-inf` the most negative finite double. -/
def nanToNum : FloatVal → FloatVal
  | .nan => .finite 0
  | .posInf => .finite maxFloat
  | .negInf => .finite (-maxFloat)
  | .finite q => .finite q

/-- `safe_divide(numerator, denominator)` elementwise on arrays of
length `n`: divide, zero out `+inf`, then `nan_to_num`. -/
def safe_divide (n : ℕ) (numerator denominator : Fin n → ℚ) :
    Fin n → FloatVal :=
  fun i => nanToNum (zeroOutPosInf (npDivide (numerator i) (denominator i)))

end Supertomo

namespace Supertomo

/-- C10: `safe_divide` is total — it is defined on every element pair,
zero denominators included — every element of its result is finite, and
any element whose raw quotient is NaN or `+inf` comes back as `0`. -/
theorem c10_safe_divide_total_finite (n : ℕ)
    (numerator denominator : Fin n → ℚ) (i : Fin n) :
    (safe_divide n numerator denominator i).isFinite = true
    ∧ ((npDivide (numerator i) (denominator i) = .nan
        ∨ npDivide (numerator i) (denominator i) = .posInf)
        → safe_divide n numerator denominator i = .finite 0) := by
  constructor
  · unfold safe_divide
    cases h : npDivide (numerator i) (denominator i) <;>
      simp [zeroOutPosInf, nanToNum, FloatVal.isFinite]
  · intro h
    unfold safe_divide
    rcases h with h | h <;> simp [h, zeroOutPosInf, nanToNum]

/-- C10 witness: the theorem at `numerator = [1, 0, -1]` and
`denominator = [0, 0, 0]`, at index 0, where the raw quotient is `1/0 =
+inf`. -/
theorem c10_safe_divide_witness :
    (npDivide ((![1, 0, -1] : Fin 3 → ℚ) 0) ((![0, 0, 0] : Fin 3 → ℚ) 0) = .nan
      ∨ npDivide ((![1, 0, -1] : Fin 3 → ℚ) 0) ((![0, 0, 0] : Fin 3 → ℚ) 0) = .posInf)
    ∧ safe_divide 3 ![1, 0, -1] ![0, 0, 0] 0 = .finite 0 :=
  ⟨Or.inr (by norm_num [npDivide]),
   (c10_safe_divide_total_finite 3 ![1, 0, -1] ![0, 0, 0] 0).2
     (Or.inr (by norm_num [npDivide]))⟩

end Supertomo

namespace Supertomo

/-! ## Archive model and the import flow (bin/import.py)

The archive itself (`supertomo/io/image_data.py`) is not among the
sources; its operations are modelled from the spec's §4.1 contract.
The import flow `main()` and the registration job orchestration are
then settled against this model. -/

/-- Modelled from the spec: the Archive of §4.1 (the `ImageData` HDF5
store of `supertomo/io/image_data.py`, absent from the sources), reduced
to the state the claims need — which `(scale, index, channel)` keys hold
a View of each acquisition type, and which hold a Transform. -/
structure Archive (κ τ : Type) where
  original : κ → Bool
  registered : κ → Bool
  psf : κ → Bool
  transforms : κ → Option τ

/-- Modelled from the spec: `add_view` for an `original`-type View. -/
def add_original_image [DecidableEq κ] (s : Archive κ τ) (k : κ) : Archive κ τ :=
  { s with original := Function.update s.original k true }

/-- Modelled from the spec: `add_view` for a `registered`-type View. -/
def add_registered_image [DecidableEq κ] (s : Archive κ τ) (k : κ) : Archive κ τ :=
  { s with registered := Function.update s.registered k true }

/-- Modelled from the spec: `add_view` for a `psf`-type View. -/
def add_psf [DecidableEq κ] (s : Archive κ τ) (k : κ) : Archive κ τ :=
  { s with psf := Function.update s.psf k true }

/-- Modelled from the spec: `add_transform`, storing a Transform under a
`(scale, index, channel)` key. -/
def add_transform [DecidableEq κ] (s : Archive κ τ) (k : κ) (t : τ) : Archive κ τ :=
  { s with transforms := Function.update s.transforms k (some t) }

/-- The empty archive: a freshly created HDF5 file. -/
def emptyArchive (κ τ : Type) : Archive κ τ :=
  ⟨fun _ => false, fun _ => false, fun _ => false, fun _ => none⟩

/-- No Transform is orphaned: a Transform exists for a key only if a
`registered`-type View exists for that key (spec §3 invariant). -/
def noOrphans (s : Archive κ τ) : Prop :=
  ∀ k, (s.transforms k).isSome = true → s.registered k = true

/-- One directory entry as the first loop of `main()` (import.py lines
74-102) classifies it: an image file of one of the three types with its
parsed key, or a file it skips. -/
inductive ImageFileEvent (κ : Type) where
  | originalFile (k : κ)
  | registeredFile (k : κ)
  | psfFile (k : κ)
  | skipped

/-- The body of the first loop of `main()`: add the image under its
parsed type and key, or skip the file. -/
def applyImageFile [DecidableEq κ] (s : Archive κ τ) :
    ImageFileEvent κ → Archive κ τ
  | .originalFile k => add_original_image s k
  | .registeredFile k => add_registered_image s k
  | .psfFile k => add_psf s k
  | .skipped => s

/-- The body of the second loop of `main()` (import.py lines 112-144) for
one recognized transform file with parsed key `k` and transform payload
`t`: if no registered View exists at `k`, resample one and add it
(`add_registered_image`); then `add_transform` at the same key. -/
def processTransformFile [DecidableEq κ] (s : Archive κ τ) (k : κ) (t : τ) :
    Archive κ τ :=
  let s1 := if s.registered k then s else add_registered_image s k
  add_transform s1 k t

/-- The import flow of `main()`: the image-file loop over the directory
listing, then the transform-file loop. -/
def importMain [DecidableEq κ] (s0 : Archive κ τ)
    (imageFiles : List (ImageFileEvent κ)) (transformFiles : List (κ × τ)) :
    Archive κ τ :=
  (transformFiles.foldl (fun s kt => processTransformFile s kt.1 kt.2)
    (imageFiles.foldl applyImageFile s0))

theorem applyImageFile_transforms [DecidableEq κ] (s : Archive κ τ)
    (e : ImageFileEvent κ) : (applyImageFile s e).transforms = s.transforms := by
  cases e <;> rfl

theorem applyImageFile_registered_mono [DecidableEq κ] (s : Archive κ τ)
    (e : ImageFileEvent κ) (k : κ) (h : s.registered k = true) :
    (applyImageFile s e).registered k = true := by
  cases e with
  | registeredFile k' =>
    by_cases hk : k = k' <;>
      simp [applyImageFile, add_registered_image, Function.update, hk, h]
  | originalFile k' => exact h
  | psfFile k' => exact h
  | skipped => exact h

theorem noOrphans_applyImageFile [DecidableEq κ] (s : Archive κ τ)
    (e : ImageFileEvent κ) (h : noOrphans s) : noOrphans (applyImageFile s e) := by
  intro k hk
  rw [applyImageFile_transforms] at hk
  exact applyImageFile_registered_mono s e k (h k hk)

theorem processTransformFile_registered_at_add [DecidableEq κ]
    (s : Archive κ τ) (k : κ) :
    (if s.registered k then s else add_registered_image s k).registered k = true := by
  by_cases h : s.registered k = true
  · simp [h]
  · simp [h, add_registered_image, Function.update]

theorem noOrphans_processTransformFile [DecidableEq κ] (s : Archive κ τ)
    (k : κ) (t : τ) (h : noOrphans s) : noOrphans (processTransformFile s k t) := by
  intro k' hk'
  unfold processTransformFile at hk' ⊢
  by_cases hkk : k' = k
  · subst hkk
    exact processTransformFile_registered_at_add s k'
  · simp only [add_transform, Function.update, dif_neg hkk] at hk' ⊢
    by_cases hreg : s.registered k = true
    · simp only [if_pos hreg] at hk' ⊢
      exact h k' hk'
    · simp only [if_neg hreg, add_registered_image] at hk' ⊢
      simp only [Function.update, dif_neg hkk]
      exact h k' hk'

theorem noOrphans_foldl_image [DecidableEq κ] (s : Archive κ τ)
    (es : List (ImageFileEvent κ)) (h : noOrphans s) :
    noOrphans (es.foldl applyImageFile s) := by
  induction es generalizing s with
  | nil => exact h
  | cons e es ih => exact ih _ (noOrphans_applyImageFile s e h)

theorem noOrphans_foldl_transform [DecidableEq κ] (s : Archive κ τ)
    (ts : List (κ × τ)) (h : noOrphans s) :
    noOrphans (ts.foldl (fun s kt => processTransformFile s kt.1 kt.2) s) := by
  induction ts generalizing s with
  | nil => exact h
  | cons t ts ih => exact ih _ (noOrphans_processTransformFile s t.1 t.2 h)

end Supertomo

namespace Supertomo

/-- C4: in the import flow, whenever `add_transform` fires for a key, the
state it fires in already has a registered View at that key (pre-existing
or added in the same loop iteration), and consequently `main()` preserves
the no-orphaned-Transforms invariant end to end. -/
theorem c4_import_no_orphans [DecidableEq κ] (s0 : Archive κ τ)
    (imageFiles : List (ImageFileEvent κ)) (transformFiles : List (κ × τ))
    (h : noOrphans s0) :
    (∀ (s : Archive κ τ) (k : κ),
        (if s.registered k then s else add_registered_image s k).registered k = true)
    ∧ noOrphans (importMain s0 imageFiles transformFiles) :=
  ⟨fun s k => processTransformFile_registered_at_add s k,
   noOrphans_foldl_transform _ transformFiles
     (noOrphans_foldl_image s0 imageFiles h)⟩

end Supertomo

namespace Supertomo

/-- C4 witness: the import invariant at a concrete run — empty fresh
archive, two image files, then two transform files (one whose registered
View pre-exists, one that triggers the resample-and-add branch). -/
theorem c4_import_no_orphans_witness :
    noOrphans (emptyArchive (ℕ × ℕ × ℕ) ℕ)
    ∧ ((∀ (s : Archive (ℕ × ℕ × ℕ) ℕ) (k : ℕ × ℕ × ℕ),
          (if s.registered k then s else add_registered_image s k).registered k
            = true)
        ∧ noOrphans (importMain (emptyArchive (ℕ × ℕ × ℕ) ℕ)
            [.originalFile (100, 0, 0), .registeredFile (100, 1, 0)]
            [((100, 1, 0), 7), ((100, 2, 0), 8)])) :=
  ⟨fun k h => by simp [emptyArchive] at h,
   c4_import_no_orphans (emptyArchive (ℕ × ℕ × ℕ) ℕ)
     [.originalFile (100, 0, 0), .registeredFile (100, 1, 0)]
     [((100, 1, 0), 7), ((100, 2, 0), 8)]
     (fun k h => by simp [emptyArchive] at h)⟩

/-! ## Registration job orchestration (C3)

`execute()` itself only stores the combined transform on the object
(`self.final_transform`); the caller that writes it into the archive is
registration orchestration code outside the given sources, so that step
is modelled from the spec. -/

/-- How one registration job ends: skipped at the user prompt, `FAILED`
in the optimizer, or `DONE`. -/
inductive JobOutcome where
  | skipped
  | failed
  | done
  deriving DecidableEq

/-- Modelled from the spec: the missing registration orchestration
(spec §4.2 steps 1 and 6 — the caller of `MultiViewRegistration` that
persists results; only `execute()` is among the sources).  If a
registered View already exists at the moving key and the user accepts the
skip, nothing is written (the skip branch at lines 95-101 of
`registration_mv.py`); a `FAILED` optimization writes nothing; otherwise
the job reaches `DONE` and the combined transform — exactly the one
`execute()` builds at lines 193-198 — is written to the archive under the
moving view's `(scale, index, channel)` key. -/
def runRegistrationJob [DecidableEq κ] (s : Archive κ AffineT) (movingKey : κ)
    (userSkips : Bool) (optimizerFailed : Bool) (manual estimated : AffineT) :
    Archive κ AffineT × JobOutcome :=
  if s.registered movingKey && userSkips then
    (s, .skipped)
  else if optimizerFailed then
    (s, .failed)
  else
    (add_transform s movingKey (combineTransforms manual estimated), .done)

end Supertomo

namespace Supertomo

/-- C3: whenever a registration job completes (`DONE`, not the skip
branch and not a failed optimization), the combined transform is stored
in the archive under the moving view's `(scale, index, channel)` key. -/
theorem c3_done_writes_combined_transform [DecidableEq κ]
    (s : Archive κ AffineT) (movingKey : κ) (userSkips optimizerFailed : Bool)
    (manual estimated : AffineT)
    (h : (runRegistrationJob s movingKey userSkips optimizerFailed
            manual estimated).2 = .done) :
    (runRegistrationJob s movingKey userSkips optimizerFailed
        manual estimated).1.transforms movingKey
      = some (combineTransforms manual estimated) := by
  unfold runRegistrationJob at h ⊢
  by_cases h1 : (s.registered movingKey && userSkips) = true
  · simp [h1] at h
  · by_cases h2 : optimizerFailed = true
    · simp [h1, h2] at h
    · simp [h1, h2, add_transform, Function.update]

/-- C3 witness: a completed job on the empty archive at the moving key
`(100, 1, 0)` with identity-and-shear concrete transforms. -/
theorem c3_done_writes_combined_transform_witness :
    (runRegistrationJob (emptyArchive (ℕ × ℕ × ℕ) AffineT) (100, 1, 0)
        false false (identityT 0)
        ⟨!![1, 1, 0; 0, 1, 0; 0, 0, 1], 0, ![1, 2, 3]⟩).2 = .done
    ∧ (runRegistrationJob (emptyArchive (ℕ × ℕ × ℕ) AffineT) (100, 1, 0)
        false false (identityT 0)
        ⟨!![1, 1, 0; 0, 1, 0; 0, 0, 1], 0, ![1, 2, 3]⟩).1.transforms (100, 1, 0)
      = some (combineTransforms (identityT 0)
          ⟨!![1, 1, 0; 0, 1, 0; 0, 0, 1], 0, ![1, 2, 3]⟩) :=
  ⟨by simp [runRegistrationJob, emptyArchive],
   c3_done_writes_combined_transform (emptyArchive (ℕ × ℕ × ℕ) AffineT)
     (100, 1, 0) false false (identityT 0)
     ⟨!![1, 1, 0; 0, 1, 0; 0, 0, 1], 0, ![1, 2, 3]⟩
     (by simp [runRegistrationJob, emptyArchive])⟩

end Supertomo
